import Mathlib

/-!
Verification of `phase2_azure/sample_data/generate_sample_data.py`.

The script is straight-line Python: it seeds two pseudo-random sources
(`random.seed(42)` and `np.random.seed(42)`), builds three tables
(customers, products, orders) column by column, and writes them to CSV
files.  We embed it shallowly:

* The two random sources are modelled by a `RandState` carrying two
  abstract streams (`py` for the `random` module, `npS` for `np.random`)
  together with a cursor into each; every primitive (`randint`, `choice`,
  `npUniform`, `npRandintExcl`) consumes one stream value and advances
  the cursor, exactly as the script consumes the global generators in
  source order.  Claims quantify over arbitrary streams, so nothing
  depends on the particular pseudo-random algorithm; where the script's
  seeding matters we model "streams are a deterministic function of the
  seed" with a concrete `stateFromSeed`.
* Python/NumPy floats are modelled as `Rat`; `round(x, 2)` is `round2`.
* `datetime.now()` is a parameter `now : Nat` (Unix epoch seconds);
  `strftime('%Y-%m-%d %H:%M:%S')` is `formatTimestamp`, built from the
  standard civil-from-days calendar algorithm, and timestamps are stored
  in the tables as formatted strings, as the script does.
-/

/-- The state of the two global pseudo-random sources: an infinite stream
of naturals for the `random` module (`py`), one for `np.random` (`npS`),
and a cursor into each. -/
structure RandState where
  py : Nat → Nat
  npS : Nat → Nat
  i : Nat
  j : Nat

/-- Draw the next raw value from the `random`-module stream. -/
def pyNext (s : RandState) : Nat × RandState :=
  (s.py s.i, { s with i := s.i + 1 })

/-- Draw the next raw value from the `np.random` stream. -/
def npNext (s : RandState) : Nat × RandState :=
  (s.npS s.j, { s with j := s.j + 1 })

/-- `random.randint(a, b)`: uniform integer in the inclusive range `[a, b]`,
modelled as `a + v % (b + 1 - a)` so the result is in range by construction
whenever `a ≤ b`. -/
def randint (a b : Nat) (s : RandState) : Nat × RandState :=
  let (v, s₁) := pyNext s
  (a + v % (b + 1 - a), s₁)

/-- `random.choice(l)`: an element of `l` selected by the stream. -/
def choice (l : List String) (s : RandState) : String × RandState :=
  let (v, s₁) := pyNext s
  (l.getD (v % l.length) "", s₁)

/-- Resolution with which the unit interval is sampled in the model of
`np.random.uniform`. -/
def uniformDenom : Nat := 1000000

/-- `np.random.uniform(lo, hi)`: a rational in `[lo, hi)`, modelled as
`lo + (hi - lo) * (v % D) / D`. -/
def npUniform (lo hi : Rat) (s : RandState) : Rat × RandState :=
  let (v, s₁) := npNext s
  (lo + (hi - lo) * ((v % uniformDenom : Nat) : Rat) / (uniformDenom : Rat), s₁)

/-- `np.random.randint(a, b)` (NumPy: `b` exclusive): integer in `[a, b)`. -/
def npRandintExcl (a b : Nat) (s : RandState) : Nat × RandState :=
  let (v, s₁) := npNext s
  (a + v % (b - a), s₁)

/-- Sample a list of `n` values with a stateful sampler, threading the
random state left to right — one column of the script's tables. -/
def sampleList (n : Nat) (f : RandState → α × RandState) (s : RandState) :
    List α × RandState :=
  match n with
  | 0 => ([], s)
  | n + 1 =>
    let (x, s₁) := f s
    let (xs, s₂) := sampleList n f s₁
    (x :: xs, s₂)

/-- `round(x, 2)` / NumPy `.round(2)`: round to two decimal places. -/
def round2 (x : Rat) : Rat := ((round (x * 100) : Int) : Rat) / 100

/-- Zero-pad a natural to two digits (`strftime` field). -/
def pad2 (n : Nat) : String :=
  if n < 10 then "0" ++ toString n else toString n

/-- Zero-pad a natural to four digits (`strftime` year). -/
def pad4 (n : Nat) : String :=
  if n < 10 then "000" ++ toString n
  else if n < 100 then "00" ++ toString n
  else if n < 1000 then "0" ++ toString n
  else toString n

/-- Gregorian date (year, month, day) from a count of days since
1970-01-01, by the standard civil-from-days algorithm. -/
def civilFromDays (z₀ : Nat) : Nat × Nat × Nat :=
  let z := z₀ + 719468
  let era := z / 146097
  let doe := z % 146097
  let yoe := (doe - doe / 1460 + doe / 36524 - doe / 146096) / 365
  let y := yoe + era * 400
  let doy := doe - (365 * yoe + yoe / 4 - yoe / 100)
  let mp := (5 * doy + 2) / 153
  let d := doy - (153 * mp + 2) / 5 + 1
  let m := if mp < 10 then mp + 3 else mp - 9
  (if m ≤ 2 then y + 1 else y, m, d)

/-- `strftime('%Y-%m-%d')` of an epoch-seconds timestamp. -/
def formatYMD (t : Nat) : String :=
  let c := civilFromDays (t / 86400)
  pad4 c.1 ++ "-" ++ pad2 c.2.1 ++ "-" ++ pad2 c.2.2

/-- `strftime('%Y-%m-%d %H:%M:%S')` of an epoch-seconds timestamp. -/
def formatTimestamp (t : Nat) : String :=
  formatYMD t ++ " " ++ pad2 (t % 86400 / 3600) ++ ":" ++
    pad2 (t % 3600 / 60) ++ ":" ++ pad2 (t % 60)

/-- `(datetime.now() - timedelta(days=d)).strftime('%Y-%m-%d %H:%M:%S')`
with `now` in epoch seconds. -/
def daysAgo (now d : Nat) : String := formatTimestamp (now - 86400 * d)

/-- A row of the customers table (`customers_data`).  Timestamp fields
hold the formatted strings the script stores. -/
structure Customer where
  customer_id : Nat
  customer_name : String
  email : String
  region : String
  status : String
  customer_lifetime_value : Rat
  created_date : String
  updated_date : String
deriving DecidableEq

/-- A row of the products table (`products_data`). -/
structure Product where
  product_id : Nat
  product_name : String
  category : String
  unit_price : Rat
  stock_quantity : Nat
  created_date : String
  updated_at : String
deriving DecidableEq

/-- A row of the orders table (`orders_data`). -/
structure Order where
  order_id : Nat
  customer_id : Nat
  product_id : Nat
  order_date : String
  quantity : Nat
  unit_price : Rat
  order_amount : Rat
  order_status : String
  last_modified_date : String
deriving DecidableEq

/-- `regions = ['North', 'South', 'East', 'West']`. -/
def regions : List String := ["North", "South", "East", "West"]

/-- `statuses = ['Active', 'Inactive', 'Churned']`. -/
def statuses : List String := ["Active", "Inactive", "Churned"]

/-- `categories = ['Electronics', 'Clothing', 'Home & Garden', 'Sports', 'Books']`. -/
def categories : List String :=
  ["Electronics", "Clothing", "Home & Garden", "Sports", "Books"]

/-- `order_statuses = ['Completed', 'Pending', 'Cancelled', 'Shipped']`. -/
def order_statuses : List String :=
  ["Completed", "Pending", "Cancelled", "Shipped"]

/-- The customers section: ids `range(1, count+1)`, then the columns of
`customers_data` sampled in source order (region, status,
customer_lifetime_value, created_date, updated_date), assembled into rows
as `pd.DataFrame` zips the columns.  The script runs it with
`count = 100`. -/
def generateCustomers (count : Nat) (s : RandState) (now : Nat) :
    List Customer × RandState :=
  let ids := List.range' 1 count
  let (regs, s₁) := sampleList count (choice regions) s
  let (stats, s₂) := sampleList count (choice statuses) s₁
  let (clvs, s₃) := sampleList count (npUniform 100 50000) s₂
  let (createdDays, s₄) := sampleList count (randint 1 365) s₃
  let (updatedDays, s₅) := sampleList count (randint 0 30) s₄
  (List.ofFn (fun k : Fin count =>
    { customer_id := ids.getD k 0
      customer_name := "Customer_" ++ toString (ids.getD k 0)
      email := "customer" ++ toString (ids.getD k 0) ++ "@company.com"
      region := regs.getD k ""
      status := stats.getD k ""
      customer_lifetime_value := clvs.getD k 0
      created_date := daysAgo now (createdDays.getD k 0)
      updated_date := daysAgo now (updatedDays.getD k 0) }), s₅)

/-- The products section: ids `range(1, count+1)`, columns of
`products_data` in source order (category, unit_price, stock_quantity,
created_date, updated_at).  The script runs it with `count = 50`. -/
def generateProducts (count : Nat) (s : RandState) (now : Nat) :
    List Product × RandState :=
  let ids := List.range' 1 count
  let (cats, s₁) := sampleList count (choice categories) s
  let (prices, s₂) := sampleList count (npUniform 10 500) s₁
  let (stocks, s₃) := sampleList count (npRandintExcl 0 1000) s₂
  let (createdDays, s₄) := sampleList count (randint 1 365) s₃
  let (updatedDays, s₅) := sampleList count (randint 0 30) s₄
  (List.ofFn (fun k : Fin count =>
    { product_id := ids.getD k 0
      product_name := "Product_" ++ toString (ids.getD k 0)
      category := cats.getD k ""
      unit_price := prices.getD k 0
      stock_quantity := stocks.getD k 0
      created_date := daysAgo now (createdDays.getD k 0)
      updated_at := daysAgo now (updatedDays.getD k 0) }), s₅)

/-- The orders section: ids `range(1, count+1)`;
`quantities = np.random.randint(1, 10, count)`,
`unit_prices = np.random.uniform(10, 200, count).round(2)`, then the
columns of `orders_data` in source order — `customer_id` and `product_id`
drawn by `random.randint` from the inclusive ranges, `order_date`,
`order_amount = [round(q * p, 2) for q, p in zip(quantities, unit_prices)]`,
`order_status`, `last_modified_date`.  The script runs it with
`count = 500`, `cRange = (1, 100)`, `pRange = (1, 50)`. -/
def generateOrders (count : Nat) (cRange pRange : Nat × Nat) (s : RandState)
    (now : Nat) : List Order × RandState :=
  let ids := List.range' 1 count
  let (quantities, s₁) := sampleList count (npRandintExcl 1 10) s
  let (rawPrices, s₂) := sampleList count (npUniform 10 200) s₁
  let unit_prices := rawPrices.map round2
  let (custIds, s₃) := sampleList count (randint cRange.1 cRange.2) s₂
  let (prodIds, s₄) := sampleList count (randint pRange.1 pRange.2) s₃
  let (orderDays, s₅) := sampleList count (randint 1 180) s₄
  let amounts := (quantities.zip unit_prices).map
    (fun qp => round2 ((qp.1 : Rat) * qp.2))
  let (stats, s₆) := sampleList count (choice order_statuses) s₅
  let (lastModDays, s₇) := sampleList count (randint 0 30) s₆
  (List.ofFn (fun k : Fin count =>
    { order_id := ids.getD k 0
      customer_id := custIds.getD k 0
      product_id := prodIds.getD k 0
      order_date := daysAgo now (orderDays.getD k 0)
      quantity := quantities.getD k 0
      unit_price := unit_prices.getD k 0
      order_amount := amounts.getD k 0
      order_status := stats.getD k ""
      last_modified_date := daysAgo now (lastModDays.getD k 0) }), s₇)

/-- Column names of `customers_data`, in dict order. -/
def customerCols : List String :=
  ["customer_id", "customer_name", "email", "region", "status",
   "customer_lifetime_value", "created_date", "updated_date"]

/-- Column names of `products_data`, in dict order. -/
def productCols : List String :=
  ["product_id", "product_name", "category", "unit_price",
   "stock_quantity", "created_date", "updated_at"]

/-- Column names of `orders_data`, in dict order. -/
def orderCols : List String :=
  ["order_id", "customer_id", "product_id", "order_date", "quantity",
   "unit_price", "order_amount", "order_status", "last_modified_date"]

/-- Comma-joined header line, as `to_csv` writes the column names. -/
def csvHeader (cols : List String) : String := String.intercalate "," cols

/-- A CSV document: header line then one line per row
(`to_csv(..., index=False)`). -/
def csvTable (header : String) (rows : List String) : String :=
  header ++ "\n" ++ String.join (rows.map (fun r => r ++ "\n"))

/-- A customer row as a CSV line. -/
def customerRow (c : Customer) : String :=
  String.intercalate ","
    [toString c.customer_id, c.customer_name, c.email, c.region, c.status,
     toString c.customer_lifetime_value, c.created_date, c.updated_date]

/-- A product row as a CSV line. -/
def productRow (p : Product) : String :=
  String.intercalate ","
    [toString p.product_id, p.product_name, p.category,
     toString p.unit_price, toString p.stock_quantity,
     p.created_date, p.updated_at]

/-- An order row as a CSV line. -/
def orderRow (o : Order) : String :=
  String.intercalate ","
    [toString o.order_id, toString o.customer_id, toString o.product_id,
     o.order_date, toString o.quantity, toString o.unit_price,
     toString o.order_amount, o.order_status, o.last_modified_date]

/-- `df_customers.to_csv('phase2_azure/sample_data/customers_full.csv', index=False)`. -/
def csvCustomers (cs : List Customer) : String :=
  csvTable (csvHeader customerCols) (cs.map customerRow)

/-- `df_products.to_csv('phase2_azure/sample_data/products_full.csv', index=False)`. -/
def csvProducts (ps : List Product) : String :=
  csvTable (csvHeader productCols) (ps.map productRow)

/-- `df_orders.to_csv(orders_file, index=False)`. -/
def csvOrders (os : List Order) : String :=
  csvTable (csvHeader orderCols) (os.map orderRow)

/-- `orders_file = f'phase2_azure/sample_data/orders_{today}.csv'` with
`today = datetime.now().strftime('%Y-%m-%d')`. -/
def ordersFileName (now : Nat) : String :=
  "phase2_azure/sample_data/orders_" ++ formatYMD now ++ ".csv"

/-- `np.random.seed(42); random.seed(42)`: the streams are a deterministic
function of the seed.  The concrete linear-congruential formula stands in
for the library generators (whose exact algorithm no claim depends on —
all claims about generated values quantify over arbitrary streams); what
this definition asserts is only that seeding determines the streams. -/
def stateFromSeed (seed : Nat) : RandState :=
  { py := fun k => (1103515245 * (seed + 2 * k) + 12345) % 2147483648
    npS := fun k => (1103515245 * (seed + 2 * k + 1) + 12345) % 2147483648
    i := 0
    j := 0 }

/-- Everything one run of the script produces. -/
structure ScriptOutput where
  customers : List Customer
  products : List Product
  orders : List Order
  files : List (String × String)
deriving DecidableEq

/-- One run of the whole script: seed, generate and serialize the three
tables in order, threading the global random state through the sections.
`now` is the wall-clock time `datetime.now()` reads. -/
def scriptRun (seed now : Nat) : ScriptOutput :=
  let s₀ := stateFromSeed seed
  let c := generateCustomers 100 s₀ now
  let p := generateProducts 50 c.2 now
  let o := generateOrders 500 (1, 100) (1, 50) p.2 now
  { customers := c.1
    products := p.1
    orders := o.1
    files :=
      [("phase2_azure/sample_data/customers_full.csv", csvCustomers c.1),
       ("phase2_azure/sample_data/products_full.csv", csvProducts p.1),
       (ordersFileName now, csvOrders o.1)] }

/-- Error taxonomy of spec §7. -/
inductive GenError where
  | validationError
deriving DecidableEq

/-- Modelled from the spec: the script has no count-parameterized entry
point and no validation; spec §4.1/§7/§8 prescribe that a hardened
`generate_customers` fails with a ValidationError-class condition on a
non-positive count instead of returning an empty table.  Generation
itself is `generateCustomers`, from the source. -/
def generateCustomersChecked (count : Nat) (s : RandState) (now : Nat) :
    Except GenError (List Customer × RandState) :=
  if count = 0 then .error .validationError
  else .ok (generateCustomers count s now)

/-- Modelled from the spec: spec §4.1/§7 prescribe that a hardened
`generate_orders` fails with a ValidationError-class condition on a
non-positive count or an empty id range.  Generation itself is
`generateOrders`, from the source. -/
def generateOrdersChecked (count : Nat) (cRange pRange : Nat × Nat)
    (s : RandState) (now : Nat) :
    Except GenError (List Order × RandState) :=
  if count = 0 ∨ cRange.2 < cRange.1 ∨ pRange.2 < pRange.1 then
    .error .validationError
  else .ok (generateOrders count cRange pRange s now)

/-- Lexicographic strict order on character sequences, by code point. -/
def lexChars : List Char → List Char → Bool
  | _, [] => false
  | [], _ :: _ => true
  | c :: cs, d :: ds =>
    if c.toNat < d.toNat then true
    else if d.toNat < c.toNat then false
    else lexChars cs ds

/-- Lexicographic strict order on strings; on the fixed-width zero-padded
`%Y-%m-%d %H:%M:%S` timestamp format this coincides with chronological
order. -/
def lexBefore (a b : String) : Bool := lexChars a.data b.data

/-- A fixed random state used to instantiate universally quantified
theorems at a concrete input. -/
def constState : RandState :=
  { py := fun _ => 0, npS := fun _ => 0, i := 0, j := 0 }

/-- A random state exhibiting an out-of-order customer timestamp pair:
for `generateCustomers 100` the `created_date` column draws the
`random`-module stream at cursor positions 200–299 and the
`updated_date` column at 300–399, so this stream makes the first
customer's `created_date` 1 day old and its `updated_date` 30 days
old. -/
def skewState : RandState :=
  { py := fun k => if k = 300 then 30 else 0
    npS := fun _ => 0
    i := 0
    j := 0 }

lemma sampleList_fst_length (n : Nat) (f : RandState → α × RandState)
    (s : RandState) : (sampleList n f s).1.length = n := by
  induction n generalizing s with
  | zero => rfl
  | succ n ih => simp [sampleList, ih]

lemma sampleList_fst_forall {P : α → Prop} {f : RandState → α × RandState}
    (hf : ∀ s, P (f s).1) (n : Nat) (s : RandState) :
    ∀ x ∈ (sampleList n f s).1, P x := by
  induction n generalizing s with
  | zero => simp [sampleList]
  | succ n ih =>
    simp only [sampleList, List.mem_cons]
    rintro x (rfl | hx)
    · exact hf s
    · exact ih _ x hx

lemma randint_fst_bounds (a b : Nat) (s : RandState) (hab : a ≤ b) :
    a ≤ (randint a b s).1 ∧ (randint a b s).1 ≤ b := by
  have h : s.py s.i % (b + 1 - a) < b + 1 - a := Nat.mod_lt _ (by omega)
  simp only [randint, pyNext]
  omega

lemma range'_one_getD {n k : Nat} (h : k < n) :
    (List.range' 1 n).getD k 0 = k + 1 := by
  rw [List.getD_eq_getElem _ _ (by simpa using h), List.getElem_range']
  omega

lemma generateCustomers_fst_length (count : Nat) (s : RandState) (now : Nat) :
    (generateCustomers count s now).1.length = count := by
  simp [generateCustomers]

lemma generateProducts_fst_length (count : Nat) (s : RandState) (now : Nat) :
    (generateProducts count s now).1.length = count := by
  simp [generateProducts]

lemma generateOrders_fst_length (count : Nat) (cr pr : Nat × Nat)
    (s : RandState) (now : Nat) :
    (generateOrders count cr pr s now).1.length = count := by
  simp [generateOrders]

lemma scriptRun_customers_length (seed now : Nat) :
    (scriptRun seed now).customers.length = 100 := by
  simp only [scriptRun]
  rw [generateCustomers_fst_length]

lemma scriptRun_products_length (seed now : Nat) :
    (scriptRun seed now).products.length = 50 := by
  simp only [scriptRun]
  rw [generateProducts_fst_length]

lemma scriptRun_orders_length (seed now : Nat) :
    (scriptRun seed now).orders.length = 500 := by
  simp only [scriptRun]
  rw [generateOrders_fst_length]

lemma generateCustomers_map_id (count : Nat) (s : RandState) (now : Nat) :
    (generateCustomers count s now).1.map Customer.customer_id
      = List.range' 1 count := by
  apply List.ext_getElem
  · simp [generateCustomers]
  · intro i h₁ h₂
    have hi : i < count := by simpa using h₂
    simp only [generateCustomers, List.getElem_map, List.getElem_ofFn,
      List.getElem_range']
    rw [range'_one_getD hi]
    omega

lemma generateProducts_map_id (count : Nat) (s : RandState) (now : Nat) :
    (generateProducts count s now).1.map Product.product_id
      = List.range' 1 count := by
  apply List.ext_getElem
  · simp [generateProducts]
  · intro i h₁ h₂
    have hi : i < count := by simpa using h₂
    simp only [generateProducts, List.getElem_map, List.getElem_ofFn,
      List.getElem_range']
    rw [range'_one_getD hi]
    omega

lemma generateOrders_map_id (count : Nat) (cr pr : Nat × Nat)
    (s : RandState) (now : Nat) :
    (generateOrders count cr pr s now).1.map Order.order_id
      = List.range' 1 count := by
  apply List.ext_getElem
  · simp [generateOrders]
  · intro i h₁ h₂
    have hi : i < count := by simpa using h₂
    simp only [generateOrders, List.getElem_map, List.getElem_ofFn,
      List.getElem_range']
    rw [range'_one_getD hi]
    omega

/-- C3: in each of the three generated tables the identifier column is
exactly the contiguous sequence `1, 2, …, count` (ids assigned
sequentially starting at 1, hence pairwise distinct with no gaps, with
`count` the table's record count). -/
theorem ids_contiguous (count : Nat) (cr pr : Nat × Nat)
    (s₁ s₂ s₃ : RandState) (now : Nat) :
    ((generateCustomers count s₁ now).1.map Customer.customer_id
        = List.range' 1 count
      ∧ ((generateCustomers count s₁ now).1.map Customer.customer_id).Nodup
      ∧ (generateCustomers count s₁ now).1.length = count)
    ∧ ((generateProducts count s₂ now).1.map Product.product_id
        = List.range' 1 count
      ∧ ((generateProducts count s₂ now).1.map Product.product_id).Nodup
      ∧ (generateProducts count s₂ now).1.length = count)
    ∧ ((generateOrders count cr pr s₃ now).1.map Order.order_id
        = List.range' 1 count
      ∧ ((generateOrders count cr pr s₃ now).1.map Order.order_id).Nodup
      ∧ (generateOrders count cr pr s₃ now).1.length = count) := by
  refine ⟨⟨generateCustomers_map_id count s₁ now, ?_,
            generateCustomers_fst_length count s₁ now⟩,
          ⟨generateProducts_map_id count s₂ now, ?_,
            generateProducts_fst_length count s₂ now⟩,
          ⟨generateOrders_map_id count cr pr s₃ now, ?_,
            generateOrders_fst_length count cr pr s₃ now⟩⟩
  · rw [generateCustomers_map_id]
    exact List.nodup_range' 1 count
  · rw [generateProducts_map_id]
    exact List.nodup_range' 1 count
  · rw [generateOrders_map_id]
    exact List.nodup_range' 1 count

/-- C5: each generation step yields exactly the configured number of
records; in the script's run the customers table has 100 records, the
products table 50, the orders table 500. -/
theorem table_counts :
    (∀ (count : Nat) (s : RandState) (now : Nat) (cr pr : Nat × Nat),
      (generateCustomers count s now).1.length = count
      ∧ (generateProducts count s now).1.length = count
      ∧ (generateOrders count cr pr s now).1.length = count)
    ∧ ∀ seed now : Nat,
      (scriptRun seed now).customers.length = 100
      ∧ (scriptRun seed now).products.length = 50
      ∧ (scriptRun seed now).orders.length = 500 := by
  refine ⟨fun count s now cr pr => ⟨?_, ?_, ?_⟩, fun seed now => ⟨?_, ?_, ?_⟩⟩
  · exact generateCustomers_fst_length count s now
  · exact generateProducts_fst_length count s now
  · exact generateOrders_fst_length count cr pr s now
  · exact scriptRun_customers_length seed now
  · exact scriptRun_products_length seed now
  · exact scriptRun_orders_length seed now

lemma sampleList_getD_of_forall {P : α → Prop} {f : RandState → α × RandState}
    (hf : ∀ s, P (f s).1) (n k : Nat) (hk : k < n) (s : RandState) (d : α) :
    P ((sampleList n f s).1.getD k d) := by
  have hlen : k < (sampleList n f s).1.length := by
    rw [sampleList_fst_length]; exact hk
  rw [List.getD_eq_getElem _ _ hlen]
  exact sampleList_fst_forall hf n s _ (List.getElem_mem hlen)

lemma zipMap_round2_getD (a : List Nat) (b : List Rat) (k : Nat)
    (ha : k < a.length) (hb : k < b.length) :
    ((a.zip b).map (fun qp => round2 ((qp.1 : Rat) * qp.2))).getD k 0
      = round2 ((a.getD k 0 : Rat) * b.getD k 0) := by
  have hz : k < (a.zip b).length := by rw [List.length_zip]; omega
  have hm : k < ((a.zip b).map (fun qp => round2 ((qp.1 : Rat) * qp.2))).length := by
    rw [List.length_map]; exact hz
  rw [List.getD_eq_getElem _ _ hm, List.getElem_map, List.getElem_zip,
    List.getD_eq_getElem _ _ ha, List.getD_eq_getElem _ _ hb]

/-- C1: for every generated order, `order_amount` equals
`round(quantity * unit_price, 2)` computed from that same record's
sampled `quantity` and (already rounded) `unit_price` — for any count,
id ranges, random streams and generation time. -/
theorem order_amount_derived (count : Nat) (cr pr : Nat × Nat)
    (s : RandState) (now : Nat) :
    ∀ o ∈ (generateOrders count cr pr s now).1,
      o.order_amount = round2 ((o.quantity : Rat) * o.unit_price) := by
  intro o ho
  simp only [generateOrders, List.mem_ofFn] at ho
  obtain ⟨k, rfl⟩ := ho
  dsimp only
  rw [zipMap_round2_getD]
  · rw [sampleList_fst_length]; exact k.isLt
  · rw [List.length_map, sampleList_fst_length]; exact k.isLt

/-- Witness for C1: the derivation equation at a concrete run. -/
theorem order_amount_derived_witness :
    ((generateOrders 1 (1, 1) (1, 1) constState 0).1.get
        ⟨0, by rw [generateOrders_fst_length]; omega⟩).order_amount
      = round2
          ((((generateOrders 1 (1, 1) (1, 1) constState 0).1.get
              ⟨0, by rw [generateOrders_fst_length]; omega⟩).quantity : Rat)
            * ((generateOrders 1 (1, 1) (1, 1) constState 0).1.get
              ⟨0, by rw [generateOrders_fst_length]; omega⟩).unit_price) :=
  order_amount_derived 1 (1, 1) (1, 1) constState 0 _ (List.get_mem _ _ _)

/-- C2: every generated order's `customer_id` lies in `1..100` and its
`product_id` in `1..50` when sampled with the script's ranges — by
construction of `randint`, for any count, streams and time; likewise in
the full script run. -/
theorem order_refs_in_range :
    (∀ (count : Nat) (s : RandState) (now : Nat),
      ∀ o ∈ (generateOrders count (1, 100) (1, 50) s now).1,
        (1 ≤ o.customer_id ∧ o.customer_id ≤ 100)
        ∧ (1 ≤ o.product_id ∧ o.product_id ≤ 50))
    ∧ ∀ seed now : Nat, ∀ o ∈ (scriptRun seed now).orders,
        (1 ≤ o.customer_id ∧ o.customer_id ≤ 100)
        ∧ (1 ≤ o.product_id ∧ o.product_id ≤ 50) := by
  have main : ∀ (count : Nat) (s : RandState) (now : Nat),
      ∀ o ∈ (generateOrders count (1, 100) (1, 50) s now).1,
        (1 ≤ o.customer_id ∧ o.customer_id ≤ 100)
        ∧ (1 ≤ o.product_id ∧ o.product_id ≤ 50) := by
    intro count s now o ho
    simp only [generateOrders, List.mem_ofFn] at ho
    obtain ⟨k, rfl⟩ := ho
    dsimp only
    constructor
    · exact sampleList_getD_of_forall (P := fun x => 1 ≤ x ∧ x ≤ 100)
        (fun s => randint_fst_bounds 1 100 s (by omega)) count k k.isLt _ 0
    · exact sampleList_getD_of_forall (P := fun x => 1 ≤ x ∧ x ≤ 50)
        (fun s => randint_fst_bounds 1 50 s (by omega)) count k k.isLt _ 0
  refine ⟨main, fun seed now o ho => ?_⟩
  simp only [scriptRun] at ho
  exact main 500 _ now o ho

/-- Witness for C2: the bounds at a concrete run. -/
theorem order_refs_in_range_witness :
    ((1 ≤ ((generateOrders 1 (1, 100) (1, 50) constState 0).1.get
          ⟨0, by rw [generateOrders_fst_length]; omega⟩).customer_id
      ∧ ((generateOrders 1 (1, 100) (1, 50) constState 0).1.get
          ⟨0, by rw [generateOrders_fst_length]; omega⟩).customer_id ≤ 100)
      ∧ (1 ≤ ((generateOrders 1 (1, 100) (1, 50) constState 0).1.get
          ⟨0, by rw [generateOrders_fst_length]; omega⟩).product_id
        ∧ ((generateOrders 1 (1, 100) (1, 50) constState 0).1.get
          ⟨0, by rw [generateOrders_fst_length]; omega⟩).product_id ≤ 50))
    ∧ ((1 ≤ ((scriptRun 42 0).orders.get
          ⟨0, by rw [scriptRun_orders_length]; omega⟩).customer_id
      ∧ ((scriptRun 42 0).orders.get
          ⟨0, by rw [scriptRun_orders_length]; omega⟩).customer_id ≤ 100)
      ∧ (1 ≤ ((scriptRun 42 0).orders.get
          ⟨0, by rw [scriptRun_orders_length]; omega⟩).product_id
        ∧ ((scriptRun 42 0).orders.get
          ⟨0, by rw [scriptRun_orders_length]; omega⟩).product_id ≤ 50)) :=
  ⟨order_refs_in_range.1 1 constState 0 _ (List.get_mem _ _ _),
   order_refs_in_range.2 42 0 _ (List.get_mem _ _ _)⟩

/-- C9: `generate_orders(count=1, customer_id_range=(1,1),
product_id_range=(1,1))` yields exactly one order, and every order it
yields has `customer_id = 1` and `product_id = 1` (a singleton inclusive
range always returns its sole element). -/
theorem singleton_range_order (s : RandState) (now : Nat) :
    (generateOrders 1 (1, 1) (1, 1) s now).1.length = 1
    ∧ ∀ o ∈ (generateOrders 1 (1, 1) (1, 1) s now).1,
        o.customer_id = 1 ∧ o.product_id = 1 := by
  refine ⟨generateOrders_fst_length 1 (1, 1) (1, 1) s now, ?_⟩
  intro o ho
  simp only [generateOrders, List.mem_ofFn] at ho
  obtain ⟨k, rfl⟩ := ho
  dsimp only
  constructor
  · exact sampleList_getD_of_forall (P := fun x => x = 1)
      (fun s => by simp [randint, pyNext, Nat.mod_one]) 1 k k.isLt _ 0
  · exact sampleList_getD_of_forall (P := fun x => x = 1)
      (fun s => by simp [randint, pyNext, Nat.mod_one]) 1 k k.isLt _ 0

/-- Witness for C9: the singleton-range scenario at a concrete run. -/
theorem singleton_range_order_witness :
    (generateOrders 1 (1, 1) (1, 1) constState 0).1.length = 1
    ∧ ((generateOrders 1 (1, 1) (1, 1) constState 0).1.get
        ⟨0, by rw [generateOrders_fst_length]; omega⟩).customer_id = 1
    ∧ ((generateOrders 1 (1, 1) (1, 1) constState 0).1.get
        ⟨0, by rw [generateOrders_fst_length]; omega⟩).product_id = 1 :=
  ⟨(singleton_range_order constState 0).1,
   ((singleton_range_order constState 0).2 _ (List.get_mem _ _ _)).1,
   ((singleton_range_order constState 0).2 _ (List.get_mem _ _ _)).2⟩

/-- C10: every generated customer's `customer_name` is exactly
`"Customer_" ++ id` and its `email` exactly `"customer" ++ id ++
"@company.com"`; and these columns are independent of the random streams
and of the generation time. -/
theorem name_email_from_id :
    (∀ (count : Nat) (s : RandState) (now : Nat),
      ∀ c ∈ (generateCustomers count s now).1,
        c.customer_name = "Customer_" ++ toString c.customer_id
        ∧ c.email = "customer" ++ toString c.customer_id ++ "@company.com")
    ∧ ∀ (count : Nat) (s s₂ : RandState) (now now₂ : Nat),
      (generateCustomers count s now).1.map Customer.customer_name
        = (generateCustomers count s₂ now₂).1.map Customer.customer_name
      ∧ (generateCustomers count s now).1.map Customer.email
        = (generateCustomers count s₂ now₂).1.map Customer.email := by
  constructor
  · intro count s now c hc
    simp only [generateCustomers, List.mem_ofFn] at hc
    obtain ⟨k, rfl⟩ := hc
    exact ⟨rfl, rfl⟩
  · intro count s s₂ now now₂
    constructor
    · apply List.ext_getElem
      · simp [generateCustomers]
      · intro i h₁ h₂
        simp only [generateCustomers, List.getElem_map, List.getElem_ofFn]
    · apply List.ext_getElem
      · simp [generateCustomers]
      · intro i h₁ h₂
        simp only [generateCustomers, List.getElem_map, List.getElem_ofFn]

/-- Witness for C10: the name and email equations at a concrete run. -/
theorem name_email_from_id_witness :
    ((generateCustomers 1 constState 0).1.get
        ⟨0, by rw [generateCustomers_fst_length]; omega⟩).customer_name
      = "Customer_" ++ toString ((generateCustomers 1 constState 0).1.get
        ⟨0, by rw [generateCustomers_fst_length]; omega⟩).customer_id
    ∧ ((generateCustomers 1 constState 0).1.get
        ⟨0, by rw [generateCustomers_fst_length]; omega⟩).email
      = "customer" ++ toString ((generateCustomers 1 constState 0).1.get
        ⟨0, by rw [generateCustomers_fst_length]; omega⟩).customer_id
        ++ "@company.com" :=
  name_email_from_id.1 1 constState 0 _ (List.get_mem _ _ _)

/-- C8: each serialized table (customers, products, orders) begins with
a header row of exactly the record type's field names in order — the
customers and orders headers match the specified strings, the products
header its field names — and the orders file is named
`orders_<YYYY-MM-DD>.csv` after the generation date (checked at two
concrete dates). -/
theorem csv_headers_and_filename :
    csvHeader customerCols
      = "customer_id,customer_name,email,region,status,customer_lifetime_value,created_date,updated_date"
    ∧ csvHeader orderCols
      = "order_id,customer_id,product_id,order_date,quantity,unit_price,order_amount,order_status,last_modified_date"
    ∧ csvHeader productCols
      = "product_id,product_name,category,unit_price,stock_quantity,created_date,updated_at"
    ∧ (∀ cs : List Customer, ∃ rest : String,
        csvCustomers cs = csvHeader customerCols ++ rest)
    ∧ (∀ ps : List Product, ∃ rest : String,
        csvProducts ps = csvHeader productCols ++ rest)
    ∧ (∀ os : List Order, ∃ rest : String,
        csvOrders os = csvHeader orderCols ++ rest)
    ∧ (∀ now : Nat, ordersFileName now
        = "phase2_azure/sample_data/orders_" ++ formatYMD now ++ ".csv")
    ∧ ordersFileName 1577836800
        = "phase2_azure/sample_data/orders_2020-01-01.csv"
    ∧ ordersFileName 0
        = "phase2_azure/sample_data/orders_1970-01-01.csv" := by
  refine ⟨rfl, rfl, rfl, ?_, ?_, ?_, fun now => rfl, by decide, by decide⟩
  · intro cs
    exact ⟨"\n" ++ String.join ((cs.map customerRow).map (fun r => r ++ "\n")),
      rfl⟩
  · intro ps
    exact ⟨"\n" ++ String.join ((ps.map productRow).map (fun r => r ++ "\n")),
      rfl⟩
  · intro os
    exact ⟨"\n" ++ String.join ((os.map orderRow).map (fun r => r ++ "\n")),
      rfl⟩

/-- C6 (spec-modelled): the hardened generators reject a zero count and
an empty id range with a ValidationError-class condition instead of
silently producing an empty table. -/
theorem invalid_count_rejected :
    (∀ (s : RandState) (now : Nat),
      generateCustomersChecked 0 s now = .error .validationError)
    ∧ (∀ (count : Nat) (cr pr : Nat × Nat) (s : RandState) (now : Nat),
        count = 0 →
        generateOrdersChecked count cr pr s now = .error .validationError)
    ∧ ∀ (count : Nat) (cr pr : Nat × Nat) (s : RandState) (now : Nat),
        cr.2 < cr.1 ∨ pr.2 < pr.1 →
        generateOrdersChecked count cr pr s now = .error .validationError := by
  refine ⟨fun s now => rfl, fun count cr pr s now h => ?_,
    fun count cr pr s now h => ?_⟩
  · have hc : count = 0 ∨ cr.2 < cr.1 ∨ pr.2 < pr.1 := Or.inl h
    simp only [generateOrdersChecked, if_pos hc]
  · have hc : count = 0 ∨ cr.2 < cr.1 ∨ pr.2 < pr.1 := Or.inr h
    simp only [generateOrdersChecked, if_pos hc]

/-- Witness for C6: rejection at concrete invalid inputs. -/
theorem invalid_count_rejected_witness :
    generateCustomersChecked 0 constState 0 = .error .validationError
    ∧ generateOrdersChecked 0 (1, 100) (1, 50) constState 0
        = .error .validationError
    ∧ generateOrdersChecked 5 (2, 1) (1, 50) constState 0
        = .error .validationError :=
  ⟨invalid_count_rejected.1 constState 0,
   invalid_count_rejected.2.1 0 (1, 100) (1, 50) constState 0 rfl,
   invalid_count_rejected.2.2 5 (2, 1) (1, 50) constState 0
     (Or.inl (by decide))⟩

set_option maxRecDepth 100000 in
/-- C7: the customer generation does not enforce
`updated_date ≥ created_date`: for some random outcome a generated
customer's `updated_date` timestamp string is strictly earlier than its
`created_date` (string order on this fixed-width format is chronological
order). -/
theorem updated_before_created_possible :
    ∃ (s : RandState) (now : Nat),
      ∃ c ∈ (generateCustomers 100 s now).1,
        (∃ tu tc : Nat, tu < tc ∧ c.updated_date = formatTimestamp tu
          ∧ c.created_date = formatTimestamp tc)
        ∧ lexBefore c.updated_date c.created_date = true := by
  exact ⟨skewState, 2592000,
    (generateCustomers 100 skewState 2592000).1.get
      ⟨0, by rw [generateCustomers_fst_length]; omega⟩,
    List.get_mem _ _ _, ⟨0, 2505600, by omega, by decide, by decide⟩, by decide⟩

/-- C4 counterexample: two runs with the same seed and the same
configuration but different wall-clock times differ — already in the
name of the orders file — so the run is not a function of seed and
configuration alone. -/
theorem run_differs_across_days : scriptRun 42 0 ≠ scriptRun 42 86400 := by
  have h : (scriptRun 42 0).files.map Prod.fst
      ≠ (scriptRun 42 86400).files.map Prod.fst := by decide
  exact fun he => h (congrArg (fun o => o.files.map Prod.fst) he)

/-- C4 amended: determinism holds once the wall-clock reading is part of
the configuration — two runs with the same seed, the same configuration
and the same generation time produce identical output, files included. -/
theorem run_deterministic (seed₁ seed₂ now₁ now₂ : Nat)
    (hs : seed₁ = seed₂) (hn : now₁ = now₂) :
    scriptRun seed₁ now₁ = scriptRun seed₂ now₂ := by
  rw [hs, hn]

/-- Witness for the amended C4 at a concrete seed and time. -/
theorem run_deterministic_witness : scriptRun 42 0 = scriptRun 42 0 :=
  run_deterministic 42 42 0 0 rfl rfl
